import Mathlib

/-
Shallow embedding of the ESP tapper motor controller
(src/tappers_service/esp_firmware/ESP_Tapper_Driver/motor_controller.{h,cpp})
and, for the drift-compensation claims, of the drift state declared in
src/tapper_system/firmware/ESP_Tapper_Driver/motor_controller.h.

The C++ class MotorController is modelled as a record of its fields; each
member function becomes a pure function on that record.  Calls to millis()
are modelled by an explicit `now` argument; the unsigned 32-bit wraparound
subtraction used for every elapsed-time comparison is modelled by `wsub`.
MQTT status publications are recorded chronologically in the `pub` field;
Serial prints are not modelled (they observe nothing the claims mention).
-/

namespace ESPTapper

/-- 2^32, the modulus of Arduino `unsigned long` arithmetic on the target. -/
def U32 : Nat := 4294967296

/-- Wraparound-safe unsigned subtraction `a - b` as computed on 32-bit
unsigned longs, for `a < 2^32`. -/
def wsub (a b : Nat) : Nat := (a + U32 - b % U32) % U32

/-- Position enum from motor_controller.h. -/
inductive Position where
  | UNKNOWN
  | MIDDLE
  | CARD1
  | CARD2
deriving DecidableEq

/-- Operation enum from motor_controller.h. -/
inductive Operation where
  | IDLE
  | MOVING_TO_MIDDLE
  | MOVING_TO_CARD1
  | MOVING_TO_CARD2
  | TAPPING_CARD1
  | TAPPING_CARD2
  | MANUAL_OPERATION
deriving DecidableEq

/-- Basic drive State enum from motor_controller.h. -/
inductive State where
  | STATE_IDLE
  | STATE_EXTENDING
  | STATE_RETRACTING
deriving DecidableEq

/-- Legacy TapState enum from motor_controller.h. -/
inductive TapState where
  | TAP_IDLE
  | TAP_EXTENDING
  | TAP_PAUSE
  | TAP_RETRACTING
  | TAP_COMPLETE
deriving DecidableEq

/- Measured timing constants from
src/tappers_service/esp_firmware/ESP_Tapper_Driver/motor_controller.h. -/

def CARD1_FROM_HOME_12V_MS : Nat := 1100
def CARD1_TAP_PAUSE_12V_MS : Nat := 1000
def CARD1_TO_HOME_12V_MS : Nat := 1100
def CARD2_FROM_HOME_12V_MS : Nat := 1300
def CARD2_TAP_PAUSE_12V_MS : Nat := 1000
def CARD2_TO_HOME_12V_MS : Nat := 1300
def HOME_FROM_EXTENDED_12V_MS : Nat := 1306
def HOME_FROM_RETRACTED_12V_MS : Nat := 1284
def EXTEND_FULL_12V_MS : Nat := 2568
def RETRACT_FULL_12V_MS : Nat := 2611

def CARD1_FROM_HOME_USB_MS : Nat := 2530
def CARD1_TAP_PAUSE_USB_MS : Nat := 1000
def CARD1_TO_HOME_USB_MS : Nat := 2530
def CARD2_FROM_HOME_USB_MS : Nat := 2990
def CARD2_TAP_PAUSE_USB_MS : Nat := 1000
def CARD2_TO_HOME_USB_MS : Nat := 2990
def HOME_FROM_EXTENDED_USB_MS : Nat := 3004
def HOME_FROM_RETRACTED_USB_MS : Nat := 2953
def EXTEND_FULL_USB_MS : Nat := 5906
def RETRACT_FULL_USB_MS : Nat := 6005

/-- The fields of class MotorController, plus `moveStartTime` (the static
local of checkLimitSwitches) and `pub`, the chronological list of MQTT
status publications. -/
structure MotorController where
  currentState : State
  tapState : TapState
  tapStartTime : Nat
  tapTimeout : Nat
  tapPauseDelay : Nat
  timedOperation : Bool
  operationStartTime : Nat
  operationDuration : Nat
  timedOperationState : State
  currentPosition : Position
  previousPosition : Position
  currentOperation : Operation
  dualCardOperationStartTime : Nat
  manualTimingStart : Nat
  timingMeasurementActive : Bool
  is12VPower : Bool
  moveStartTime : Nat
  pub : List String
deriving DecidableEq

/-- mqttHandler.publishStatus: append one status message. -/
def publishStatus (m : String) (s : MotorController) : MotorController :=
  { s with pub := s.pub ++ [m] }

/-- mqttHandler.publishDetailedStatus, modelled as one opaque message. -/
def publishDetailedStatus (s : MotorController) : MotorController :=
  { s with pub := s.pub ++ ["detailed_status"] }

namespace MotorController

/-- The state right after init(): stop() plus Unknown/Unknown/Idle. -/
def init : MotorController :=
  { currentState := .STATE_IDLE
    tapState := .TAP_IDLE
    tapStartTime := 0
    tapTimeout := 2000
    tapPauseDelay := 200
    timedOperation := false
    operationStartTime := 0
    operationDuration := 0
    timedOperationState := .STATE_IDLE
    currentPosition := .UNKNOWN
    previousPosition := .UNKNOWN
    currentOperation := .IDLE
    dualCardOperationStartTime := 0
    manualTimingStart := 0
    timingMeasurementActive := false
    is12VPower := true
    moveStartTime := 0
    pub := ["idle"] }

def extend (s : MotorController) : MotorController :=
  publishStatus "extending" { s with currentState := .STATE_EXTENDING }

def retract (s : MotorController) : MotorController :=
  publishStatus "retracting" { s with currentState := .STATE_RETRACTING }

def stop (s : MotorController) : MotorController :=
  publishStatus "idle" { s with currentState := .STATE_IDLE }

def extendForTime (now duration_ms : Nat) (s : MotorController) : MotorController :=
  let s1 := if s.timedOperation then { stop s with timedOperation := false } else s
  { extend s1 with
      operationStartTime := now
      operationDuration := duration_ms
      timedOperationState := .STATE_EXTENDING
      timedOperation := true }

def retractForTime (now duration_ms : Nat) (s : MotorController) : MotorController :=
  let s1 := if s.timedOperation then { stop s with timedOperation := false } else s
  { retract s1 with
      operationStartTime := now
      operationDuration := duration_ms
      timedOperationState := .STATE_RETRACTING
      timedOperation := true }

def updateTimedOperations (now : Nat) (s : MotorController) : MotorController :=
  if s.timedOperation = false then s
  else if wsub now s.operationStartTime ≥ s.operationDuration then
    let s1 := { stop s with timedOperation := false }
    match s.timedOperationState with
    | .STATE_EXTENDING => publishStatus "extend_complete" s1
    | .STATE_RETRACTING => publishStatus "retract_complete" s1
    | .STATE_IDLE => publishStatus "operation_complete" s1
  else s

def startTap (now : Nat) (s : MotorController) : MotorController :=
  { extend s with tapState := .TAP_EXTENDING, tapStartTime := now }

def updateTap (now : Nat) (s : MotorController) : MotorController :=
  match s.tapState with
  | .TAP_IDLE => s
  | .TAP_EXTENDING =>
      if wsub now s.tapStartTime > s.tapTimeout then
        { stop s with tapState := .TAP_PAUSE, tapStartTime := now }
      else s
  | .TAP_PAUSE =>
      if wsub now s.tapStartTime > s.tapPauseDelay then
        { retract s with tapState := .TAP_RETRACTING, tapStartTime := now }
      else s
  | .TAP_RETRACTING =>
      if wsub now s.tapStartTime > s.tapTimeout then
        { stop s with tapState := .TAP_COMPLETE }
      else s
  | .TAP_COMPLETE =>
      publishStatus "idle" { s with tapState := .TAP_IDLE }

def isTapping (s : MotorController) : Bool :=
  decide (s.tapState ≠ .TAP_IDLE) || s.timedOperation ||
    decide (s.currentOperation ≠ .IDLE)

def getOperationString (s : MotorController) : String :=
  match s.currentOperation with
  | .IDLE => "idle"
  | .MOVING_TO_MIDDLE => "moving_to_middle"
  | .MOVING_TO_CARD1 => "moving_to_card1"
  | .MOVING_TO_CARD2 => "moving_to_card2"
  | .TAPPING_CARD1 => "tapping_card1"
  | .TAPPING_CARD2 => "tapping_card2"
  | .MANUAL_OPERATION => "manual_operation"

def getPositionString (s : MotorController) : String :=
  match s.currentPosition with
  | .UNKNOWN => "unknown"
  | .MIDDLE => "middle"
  | .CARD1 => "card1"
  | .CARD2 => "card2"

/-- getState(), transcribed with its four priority tiers inline. -/
def getState (s : MotorController) : String :=
  if s.currentOperation ≠ .IDLE then
    getOperationString s
  else if s.timedOperation then
    match s.timedOperationState with
    | .STATE_EXTENDING => "timed_extending"
    | .STATE_RETRACTING => "timed_retracting"
    | .STATE_IDLE => "timed_operation"
  else if s.tapState ≠ .TAP_IDLE then
    match s.tapState with
    | .TAP_EXTENDING => "tap_extending"
    | .TAP_PAUSE => "tap_pausing"
    | .TAP_RETRACTING => "tap_retracting"
    | .TAP_COMPLETE => "tap_complete"
    | .TAP_IDLE => "tapping"
  else
    match s.currentState with
    | .STATE_EXTENDING => "extending"
    | .STATE_RETRACTING => "retracting"
    | .STATE_IDLE => "idle"

/-- checkLimitSwitches(): the 5000 ms safety timeout. -/
def checkLimitSwitches (now : Nat) (s : MotorController) : MotorController :=
  if isTapping s then { s with moveStartTime := 0 }
  else if s.currentState = .STATE_EXTENDING ∨ s.currentState = .STATE_RETRACTING then
    if s.moveStartTime = 0 then { s with moveStartTime := now }
    else if wsub now s.moveStartTime > 5000 then
      { stop s with moveStartTime := 0 }
    else s
  else { s with moveStartTime := 0 }

/- Timing helper functions. -/

def getCard1FromHomeMs (s : MotorController) : Nat :=
  if s.is12VPower then CARD1_FROM_HOME_12V_MS else CARD1_FROM_HOME_USB_MS

def getCard1TapPauseMs (s : MotorController) : Nat :=
  if s.is12VPower then CARD1_TAP_PAUSE_12V_MS else CARD1_TAP_PAUSE_USB_MS

def getCard1ToHomeMs (s : MotorController) : Nat :=
  if s.is12VPower then CARD1_TO_HOME_12V_MS else CARD1_TO_HOME_USB_MS

def getCard2FromHomeMs (s : MotorController) : Nat :=
  if s.is12VPower then CARD2_FROM_HOME_12V_MS else CARD2_FROM_HOME_USB_MS

def getCard2TapPauseMs (s : MotorController) : Nat :=
  if s.is12VPower then CARD2_TAP_PAUSE_12V_MS else CARD2_TAP_PAUSE_USB_MS

def getCard2ToHomeMs (s : MotorController) : Nat :=
  if s.is12VPower then CARD2_TO_HOME_12V_MS else CARD2_TO_HOME_USB_MS

def getHomeFromExtendedMs (s : MotorController) : Nat :=
  if s.is12VPower then HOME_FROM_EXTENDED_12V_MS else HOME_FROM_EXTENDED_USB_MS

def getHomeFromRetractedMs (s : MotorController) : Nat :=
  if s.is12VPower then HOME_FROM_RETRACTED_12V_MS else HOME_FROM_RETRACTED_USB_MS

def getExtendFullMs (s : MotorController) : Nat :=
  if s.is12VPower then EXTEND_FULL_12V_MS else EXTEND_FULL_USB_MS

def getRetractFullMs (s : MotorController) : Nat :=
  if s.is12VPower then RETRACT_FULL_12V_MS else RETRACT_FULL_USB_MS

/- Internal dual card operations. -/

def isDualCardOperationTimedOut (now timeoutMs : Nat) (s : MotorController) : Bool :=
  decide (wsub now s.dualCardOperationStartTime ≥ timeoutMs)

def startDualCardOperation (op : Operation) (now : Nat) (s : MotorController) :
    MotorController :=
  { s with
      previousPosition := s.currentPosition
      currentOperation := op
      dualCardOperationStartTime := now }

def completeDualCardOperation (s : MotorController) : MotorController :=
  publishDetailedStatus { stop s with currentOperation := .IDLE }

/- Dual card entry points. -/

def resetToMiddle (now : Nat) (s : MotorController) : MotorController :=
  if s.currentOperation ≠ .IDLE then s
  else if s.currentPosition = .MIDDLE then s
  else
    let s1 :=
      if s.currentPosition = .CARD1 then retract s
      else if s.currentPosition = .CARD2 then extend s
      else retract s
    startDualCardOperation .MOVING_TO_MIDDLE now s1

def tapCard1 (now : Nat) (s : MotorController) : MotorController :=
  if s.currentOperation ≠ .IDLE then s
  else if s.currentPosition ≠ .MIDDLE then resetToMiddle now s
  else startDualCardOperation .MOVING_TO_CARD1 now (extend s)

def tapCard2 (now : Nat) (s : MotorController) : MotorController :=
  if s.currentOperation ≠ .IDLE then s
  else if s.currentPosition ≠ .MIDDLE then resetToMiddle now s
  else startDualCardOperation .MOVING_TO_CARD2 now (retract s)

def updateDualCardOperations (now : Nat) (s : MotorController) : MotorController :=
  if s.currentOperation = .IDLE then s
  else
    match s.currentOperation with
    | .IDLE => s
    | .MOVING_TO_MIDDLE =>
        if s.previousPosition = .CARD1 then
          if isDualCardOperationTimedOut now (getCard1ToHomeMs s) s then
            completeDualCardOperation { s with currentPosition := .MIDDLE }
          else s
        else if s.previousPosition = .CARD2 then
          if isDualCardOperationTimedOut now (getCard2ToHomeMs s) s then
            completeDualCardOperation { s with currentPosition := .MIDDLE }
          else s
        else if s.previousPosition = .UNKNOWN then
          if isDualCardOperationTimedOut now (getRetractFullMs s) s then
            { extend s with
                previousPosition := .CARD2
                dualCardOperationStartTime := now }
          else s
        else
          if isDualCardOperationTimedOut now (getHomeFromRetractedMs s) s then
            completeDualCardOperation { s with currentPosition := .MIDDLE }
          else s
    | .MOVING_TO_CARD1 =>
        if isDualCardOperationTimedOut now (getCard1FromHomeMs s) s then
          { stop { s with currentPosition := .CARD1 } with
              currentOperation := .TAPPING_CARD1
              dualCardOperationStartTime := now }
        else s
    | .MOVING_TO_CARD2 =>
        if isDualCardOperationTimedOut now (getCard2FromHomeMs s) s then
          { stop { s with currentPosition := .CARD2 } with
              currentOperation := .TAPPING_CARD2
              dualCardOperationStartTime := now }
        else s
    | .TAPPING_CARD1 =>
        if isDualCardOperationTimedOut now (getCard1TapPauseMs s) s then
          { retract s with
              previousPosition := .CARD1
              currentOperation := .MOVING_TO_MIDDLE
              dualCardOperationStartTime := now }
        else s
    | .TAPPING_CARD2 =>
        if isDualCardOperationTimedOut now (getCard2TapPauseMs s) s then
          { extend s with
              previousPosition := .CARD2
              currentOperation := .MOVING_TO_MIDDLE
              dualCardOperationStartTime := now }
        else s
    | .MANUAL_OPERATION => s

/- Calibration functions. -/

def startTimingMeasurement (now : Nat) (s : MotorController) : MotorController :=
  { s with manualTimingStart := now, timingMeasurementActive := true }

def manualExtend (now : Nat) (s : MotorController) : MotorController :=
  let s1 := if s.currentOperation ≠ .IDLE then completeDualCardOperation s else s
  { extend (startTimingMeasurement now s1) with
      currentPosition := .UNKNOWN
      currentOperation := .MANUAL_OPERATION }

def manualRetract (now : Nat) (s : MotorController) : MotorController :=
  let s1 := if s.currentOperation ≠ .IDLE then completeDualCardOperation s else s
  { retract (startTimingMeasurement now s1) with
      currentPosition := .UNKNOWN
      currentOperation := .MANUAL_OPERATION }

def manualStop (_now : Nat) (s : MotorController) : MotorController :=
  let s1 := if s.currentOperation ≠ .IDLE then completeDualCardOperation s else stop s
  let s2 := { s1 with currentOperation := .IDLE }
  if s2.timingMeasurementActive then { s2 with timingMeasurementActive := false }
  else s2

def captureCurrentAsMiddle (s : MotorController) : MotorController :=
  let s1 := if s.currentOperation ≠ .IDLE then completeDualCardOperation s else s
  publishDetailedStatus { s1 with currentPosition := .MIDDLE }

/- Power source management. -/

def setPowerSource12V (s : MotorController) : MotorController :=
  { s with is12VPower := true }

def setPowerSourceUSB (s : MotorController) : MotorController :=
  { s with is12VPower := false }

def getPowerSourceString (s : MotorController) : String :=
  if s.is12VPower then "12V" else "USB"

/-- The label produced by getState's timed-operation switch. -/
def timedOpLabel (s : MotorController) : String :=
  match s.timedOperationState with
  | .STATE_EXTENDING => "timed_extending"
  | .STATE_RETRACTING => "timed_retracting"
  | .STATE_IDLE => "timed_operation"

/-- The label produced by getState's legacy-tap switch. -/
def legacyTapLabel (s : MotorController) : String :=
  match s.tapState with
  | .TAP_EXTENDING => "tap_extending"
  | .TAP_PAUSE => "tap_pausing"
  | .TAP_RETRACTING => "tap_retracting"
  | .TAP_COMPLETE => "tap_complete"
  | .TAP_IDLE => "tapping"

/-- The label produced by getState's basic drive-state switch. -/
def basicStateLabel (s : MotorController) : String :=
  match s.currentState with
  | .STATE_EXTENDING => "extending"
  | .STATE_RETRACTING => "retracting"
  | .STATE_IDLE => "idle"

end MotorController

/-- The two physical cards, used to state card-symmetric properties. -/
inductive Card where
  | one
  | two
deriving DecidableEq

/-- tapCard1/tapCard2 selected by card. -/
def tapCard : Card → Nat → MotorController → MotorController
  | .one => MotorController.tapCard1
  | .two => MotorController.tapCard2

def movingOp : Card → Operation
  | .one => .MOVING_TO_CARD1
  | .two => .MOVING_TO_CARD2

def tappingOp : Card → Operation
  | .one => .TAPPING_CARD1
  | .two => .TAPPING_CARD2

def cardPos : Card → Position
  | .one => .CARD1
  | .two => .CARD2

/-- The approach duration (getCardXFromHomeMs) as a function of card and
power flag. -/
def approachDur : Card → Bool → Nat
  | .one, true => CARD1_FROM_HOME_12V_MS
  | .one, false => CARD1_FROM_HOME_USB_MS
  | .two, true => CARD2_FROM_HOME_12V_MS
  | .two, false => CARD2_FROM_HOME_USB_MS

/-- The tap-pause duration (getCardXTapPauseMs) as a function of card and
power flag. -/
def pauseDur : Card → Bool → Nat
  | .one, true => CARD1_TAP_PAUSE_12V_MS
  | .one, false => CARD1_TAP_PAUSE_USB_MS
  | .two, true => CARD2_TAP_PAUSE_12V_MS
  | .two, false => CARD2_TAP_PAUSE_USB_MS

/-- The return duration (getCardXToHomeMs) as a function of card and
power flag. -/
def returnDur : Card → Bool → Nat
  | .one, true => CARD1_TO_HOME_12V_MS
  | .one, false => CARD1_TO_HOME_USB_MS
  | .two, true => CARD2_TO_HOME_12V_MS
  | .two, false => CARD2_TO_HOME_USB_MS

/-- Fold updateDualCardOperations over a list of poll times. -/
def runUpdates (s : MotorController) (ts : List Nat) : MotorController :=
  ts.foldl (fun acc t => MotorController.updateDualCardOperations t acc) s

/-- The Operation observed after each poll of updateDualCardOperations. -/
def opsTrace : MotorController → List Nat → List Operation
  | _, [] => []
  | s, t :: ts =>
      (MotorController.updateDualCardOperations t s).currentOperation ::
        opsTrace (MotorController.updateDualCardOperations t s) ts

/-- Collapse consecutive duplicates, leaving the sequence of distinct
states visited. -/
def dedupConsec : List Operation → List Operation
  | [] => []
  | [a] => [a]
  | a :: b :: l =>
      if a = b then dedupConsec (b :: l) else a :: dedupConsec (b :: l)

/-- Approach phase of a card tap: the controller is moving towards card
`c`, the phase timer started at `b`, the believed position is still
Middle, and the power flag is `p`. -/
def tapPhase1 (c : Card) (p : Bool) (b : Nat) (s : MotorController) : Prop :=
  s.currentOperation = movingOp c ∧ s.currentPosition = .MIDDLE ∧
    s.dualCardOperationStartTime = b ∧ s.is12VPower = p

/-- Pause phase of a card tap: tapping card `c`, timer started at `b`. -/
def tapPhase2 (c : Card) (p : Bool) (b : Nat) (s : MotorController) : Prop :=
  s.currentOperation = tappingOp c ∧ s.currentPosition = cardPos c ∧
    s.dualCardOperationStartTime = b ∧ s.is12VPower = p

/-- Return phase of a card tap: moving back to the middle from card `c`,
timer started at `b`. -/
def tapPhase3 (c : Card) (p : Bool) (b : Nat) (s : MotorController) : Prop :=
  s.currentOperation = .MOVING_TO_MIDDLE ∧ s.previousPosition = cardPos c ∧
    s.currentPosition = cardPos c ∧ s.dualCardOperationStartTime = b ∧
    s.is12VPower = p

namespace TapperSystem

/- Drift-compensation model for the tapper_system firmware variant.  Its
header (src/tapper_system/firmware/ESP_Tapper_Driver/motor_controller.h)
declares the accumulator fields and the constants below, but the
implementation file is not in the source tree, so the accumulator dynamics
and the compensated lookup are modelled from the spec. -/

def DRIFT_PER_TAP_MS : Nat := 5
def MAX_DRIFT_COMPENSATION : Nat := 50

def CARD1_TO_HOME_12V_US : Nat := 995000
def CARD1_TO_HOME_USB_US : Nat := 2530000
def CARD2_TO_HOME_12V_US : Nat := 1395000
def CARD2_TO_HOME_USB_US : Nat := 2990000

/-- The per-card drift accumulators declared in the tapper_system header. -/
structure DriftState where
  card1DriftAccumulator : Nat
  card2DriftAccumulator : Nat
deriving DecidableEq

def driftAcc : Card → DriftState → Nat
  | .one, d => d.card1DriftAccumulator
  | .two, d => d.card2DriftAccumulator

/-- Boot state: both accumulators initialized to 0 (header initializers). -/
def initialDrift : DriftState := ⟨0, 0⟩

/-- Modelled from the spec: the drift update performed when a Card1/Card2
tap completes, implemented in tapper_system's motor_controller.cpp which is
missing from the source tree.  Spec: "Each completed Card1/Card2 tap
increments that card's drift accumulator by a fixed per-tap amount,
capped". -/
def recordTapDrift : Card → DriftState → DriftState
  | .one, d =>
      let a := min (d.card1DriftAccumulator + DRIFT_PER_TAP_MS) MAX_DRIFT_COMPENSATION
      { d with card1DriftAccumulator := a }
  | .two, d =>
      let a := min (d.card2DriftAccumulator + DRIFT_PER_TAP_MS) MAX_DRIFT_COMPENSATION
      { d with card2DriftAccumulator := a }

/-- Nominal return-to-middle duration from the tapper_system tables,
converted from microseconds to milliseconds. -/
def nominalToHomeMs : Card → Bool → Nat
  | .one, true => CARD1_TO_HOME_12V_US / 1000
  | .one, false => CARD1_TO_HOME_USB_US / 1000
  | .two, true => CARD2_TO_HOME_12V_US / 1000
  | .two, false => CARD2_TO_HOME_USB_US / 1000

/-- Modelled from the spec: the drift-compensated return-duration lookup,
implemented in tapper_system's motor_controller.cpp which is missing from
the source tree.  Spec: "the accumulator is subtracted from the nominal
return duration on every lookup (clamped non-negative, never exceeding the
cap)". -/
def compensatedToHomeMs (c : Card) (is12V : Bool) (d : DriftState) : Int :=
  max 0 ((nominalToHomeMs c is12V : Int) -
    (min (driftAcc c d) MAX_DRIFT_COMPENSATION : Nat))

/-- The drift state after `n` completed taps of card `c` from boot. -/
def driftAfter (c : Card) (n : Nat) : DriftState :=
  (recordTapDrift c)^[n] initialDrift

end TapperSystem

/-- A concrete state used by several witnesses: boot state with the
current position captured as middle. -/
def midState : MotorController :=
  MotorController.captureCurrentAsMiddle MotorController.init

/-- A concrete busy state: a manual operation in progress. -/
def busyState : MotorController := MotorController.manualExtend 0 MotorController.init

/- Concrete run used to evaluate the Unknown-position recovery of
resetToMiddle at 12V power: reset issued at t=1000, polls at t=3611
(elapsed 2611 = RETRACT_FULL_12V_MS, the end of phase 1), t=4895
(phase-2 elapsed 1284 = HOME_FROM_RETRACTED_12V_MS) and t=4911
(phase-2 elapsed 1300 = CARD2_TO_HOME_12V_MS). -/

def c6s1 : MotorController := MotorController.resetToMiddle 1000 MotorController.init

def c6s2 : MotorController := MotorController.updateDualCardOperations 3611 c6s1

def c6s3 : MotorController := MotorController.updateDualCardOperations 4895 c6s2

def c6s4 : MotorController := MotorController.updateDualCardOperations 4911 c6s3

/- ------------------------------------------------------------------ -/
/- Theorems.                                                           -/
/- ------------------------------------------------------------------ -/

open MotorController

/-- On the 32-bit clock, elapsed time is ordinary subtraction as long as
the clock has not wrapped. -/
theorem wsub_eq_of_le {a b : Nat} (hba : b ≤ a) (ha : a < U32) :
    wsub a b = a - b := by
  have hb : b < U32 := lt_of_le_of_lt hba ha
  unfold wsub
  rw [Nat.mod_eq_of_lt hb]
  have h1 : a + U32 - b = (a - b) + U32 := by omega
  rw [h1, Nat.add_mod_right, Nat.mod_eq_of_lt (by omega)]

/-- Claim C3 counterexample: no single multiplier maps every 12V duration
to its USB counterpart (the tap-pause entries are copied unscaled), and
even the scaled entries are not exact multiples of 2.3 (they are rounded
to whole milliseconds). -/
theorem c3_counterexample :
    (¬ ∃ m : ℚ, (CARD1_FROM_HOME_USB_MS : ℚ) = m * (CARD1_FROM_HOME_12V_MS : ℚ) ∧
        (CARD1_TAP_PAUSE_USB_MS : ℚ) = m * (CARD1_TAP_PAUSE_12V_MS : ℚ)) ∧
    (HOME_FROM_EXTENDED_USB_MS : ℚ) ≠ (23 / 10 : ℚ) * (HOME_FROM_EXTENDED_12V_MS : ℚ) := by
  constructor
  · rintro ⟨m, h1, h2⟩
    rw [CARD1_FROM_HOME_USB_MS, CARD1_FROM_HOME_12V_MS] at h1
    rw [CARD1_TAP_PAUSE_USB_MS, CARD1_TAP_PAUSE_12V_MS] at h2
    push_cast at h1 h2
    linarith
  · rw [HOME_FROM_EXTENDED_USB_MS, HOME_FROM_EXTENDED_12V_MS]
    push_cast
    norm_num

/-- Claim C3 (amended): every USB movement duration equals the matching
12V duration times 2.3 rounded to the nearest millisecond, and the two
USB tap-pause durations equal the 12V tap-pause durations unscaled; all
of them are immutable constants of the embedding. -/
theorem c3_usb_scaling :
    CARD1_FROM_HOME_USB_MS = (CARD1_FROM_HOME_12V_MS * 23 + 5) / 10 ∧
    CARD1_TO_HOME_USB_MS = (CARD1_TO_HOME_12V_MS * 23 + 5) / 10 ∧
    CARD2_FROM_HOME_USB_MS = (CARD2_FROM_HOME_12V_MS * 23 + 5) / 10 ∧
    CARD2_TO_HOME_USB_MS = (CARD2_TO_HOME_12V_MS * 23 + 5) / 10 ∧
    HOME_FROM_EXTENDED_USB_MS = (HOME_FROM_EXTENDED_12V_MS * 23 + 5) / 10 ∧
    HOME_FROM_RETRACTED_USB_MS = (HOME_FROM_RETRACTED_12V_MS * 23 + 5) / 10 ∧
    EXTEND_FULL_USB_MS = (EXTEND_FULL_12V_MS * 23 + 5) / 10 ∧
    RETRACT_FULL_USB_MS = (RETRACT_FULL_12V_MS * 23 + 5) / 10 ∧
    CARD1_TAP_PAUSE_USB_MS = CARD1_TAP_PAUSE_12V_MS ∧
    CARD2_TAP_PAUSE_USB_MS = CARD2_TAP_PAUSE_12V_MS := by
  decide

/-- Claim C4: while an Operation is in progress, tapCard1, tapCard2 and
resetToMiddle reject the call and leave the whole controller state (in
particular Position, Operation and the drive output) unchanged, with no
error return. -/
theorem c4_busy_calls_are_noops (s : MotorController) (now : Nat)
    (h : s.currentOperation ≠ .IDLE) :
    tapCard1 now s = s ∧ tapCard2 now s = s ∧ resetToMiddle now s = s := by
  refine ⟨?_, ?_, ?_⟩ <;>
    simp [tapCard1, tapCard2, resetToMiddle, h]

/-- Witness for C4 at a concrete busy state. -/
theorem c4_busy_calls_are_noops_witness :
    tapCard1 7 busyState = busyState ∧ tapCard2 7 busyState = busyState ∧
      resetToMiddle 7 busyState = busyState :=
  c4_busy_calls_are_noops busyState 7 (by decide)

/-- Claim C7: with Operation idle but Position not Middle, a tap request
starts no tap: the call is exactly a resetToMiddle call (so nothing is
queued for after the reset), and the resulting Operation is
MOVING_TO_MIDDLE. -/
theorem c7_tap_redirects_to_reset (s : MotorController) (now : Nat)
    (hop : s.currentOperation = .IDLE) (hpos : s.currentPosition ≠ .MIDDLE) :
    tapCard1 now s = resetToMiddle now s ∧
    tapCard2 now s = resetToMiddle now s ∧
    (tapCard1 now s).currentOperation = .MOVING_TO_MIDDLE ∧
    (tapCard2 now s).currentOperation = .MOVING_TO_MIDDLE := by
  refine ⟨?_, ?_, ?_, ?_⟩ <;>
    simp [tapCard1, tapCard2, resetToMiddle, startDualCardOperation, hop, hpos]

/-- Witness for C7 at the boot state (Position Unknown, Operation Idle). -/
theorem c7_tap_redirects_to_reset_witness :
    tapCard1 3 MotorController.init = resetToMiddle 3 MotorController.init ∧
    tapCard2 3 MotorController.init = resetToMiddle 3 MotorController.init ∧
    (tapCard1 3 MotorController.init).currentOperation = .MOVING_TO_MIDDLE ∧
    (tapCard2 3 MotorController.init).currentOperation = .MOVING_TO_MIDDLE :=
  c7_tap_redirects_to_reset MotorController.init 3 (by decide) (by decide)

/-- Claim C8 counterexample: with Operation idle but a timed operation
outstanding (started by extendForTime), captureCurrentAsMiddle leaves the
actuator driving and the timed operation pending — the in-flight work is
not force-completed and the actuator is not stopped, contrary to the
claim. -/
theorem c8_counterexample :
    (captureCurrentAsMiddle (extendForTime 0 5000 MotorController.init)).currentPosition
        = .MIDDLE ∧
    (captureCurrentAsMiddle (extendForTime 0 5000 MotorController.init)).currentOperation
        = .IDLE ∧
    (captureCurrentAsMiddle (extendForTime 0 5000 MotorController.init)).currentState
        = .STATE_EXTENDING ∧
    (captureCurrentAsMiddle (extendForTime 0 5000 MotorController.init)).timedOperation
        = true := by
  decide

/-- Claim C8 (amended): captureCurrentAsMiddle always ends with Position
Middle and Operation Idle; a dual-card or manual operation in flight is
first force-completed with the actuator stopped, but an outstanding timed
operation is neither cancelled nor stopped — when Operation was already
Idle the drive output is left as it was. -/
theorem c8_capture_as_middle (s : MotorController) :
    (captureCurrentAsMiddle s).currentPosition = .MIDDLE ∧
    (captureCurrentAsMiddle s).currentOperation = .IDLE ∧
    (s.currentOperation ≠ .IDLE →
      (captureCurrentAsMiddle s).currentState = .STATE_IDLE) ∧
    (s.currentOperation = .IDLE →
      (captureCurrentAsMiddle s).currentState = s.currentState) ∧
    (captureCurrentAsMiddle s).timedOperation = s.timedOperation := by
  by_cases h : s.currentOperation = .IDLE <;>
    simp [captureCurrentAsMiddle, completeDualCardOperation, stop,
      publishStatus, publishDetailedStatus, h]

/-- Witness for C8 at a concrete busy state. -/
theorem c8_capture_as_middle_witness :
    (captureCurrentAsMiddle busyState).currentPosition = .MIDDLE ∧
    (captureCurrentAsMiddle busyState).currentState = .STATE_IDLE :=
  ⟨(c8_capture_as_middle busyState).1,
    (c8_capture_as_middle busyState).2.2.1 (by decide)⟩

/-- Claim C9: getState picks its label by strict priority — an active
dual-card Operation wins, then an outstanding timed operation, then a
non-idle legacy tap state, and only then the basic drive state. -/
theorem c9_state_priority (s : MotorController) :
    (s.currentOperation ≠ .IDLE → getState s = getOperationString s) ∧
    (s.currentOperation = .IDLE → s.timedOperation = true →
      getState s = timedOpLabel s) ∧
    (s.currentOperation = .IDLE → s.timedOperation = false →
      s.tapState ≠ .TAP_IDLE → getState s = legacyTapLabel s) ∧
    (s.currentOperation = .IDLE → s.timedOperation = false →
      s.tapState = .TAP_IDLE → getState s = basicStateLabel s) := by
  refine ⟨fun h1 => ?_, fun h1 h2 => ?_, fun h1 h2 h3 => ?_, fun h1 h2 h3 => ?_⟩
  · simp [getState, h1]
  · simp [getState, timedOpLabel, h1, h2]
  · simp [getState, legacyTapLabel, h1, h2, h3]
  · simp [getState, basicStateLabel, h1, h2, h3]

/-- Witness for C9: the timed-operation tier at a concrete state. -/
theorem c9_state_priority_witness :
    getState (extendForTime 0 5000 MotorController.init)
      = timedOpLabel (extendForTime 0 5000 MotorController.init) :=
  (c9_state_priority (extendForTime 0 5000 MotorController.init)).2.1
    (by decide) (by decide)

/-- The fields of the state left by manualStop after extendForTime that
updateTimedOperations reads. -/
theorem manualStop_after_extendForTime (s : MotorController) (t0 d t1 : Nat)
    (hop : s.currentOperation = .IDLE) :
    (manualStop t1 (extendForTime t0 d s)).timedOperation = true ∧
    (manualStop t1 (extendForTime t0 d s)).currentState = .STATE_IDLE ∧
    (manualStop t1 (extendForTime t0 d s)).operationStartTime = t0 ∧
    (manualStop t1 (extendForTime t0 d s)).operationDuration = d ∧
    (manualStop t1 (extendForTime t0 d s)).timedOperationState = .STATE_EXTENDING := by
  by_cases h1 : s.timedOperation <;> by_cases h2 : s.timingMeasurementActive <;>
    simp [manualStop, extendForTime, extend, stop, publishStatus, hop, h1, h2]

/-- The fields of the state left by manualStop after retractForTime that
updateTimedOperations reads. -/
theorem manualStop_after_retractForTime (s : MotorController) (t0 d t1 : Nat)
    (hop : s.currentOperation = .IDLE) :
    (manualStop t1 (retractForTime t0 d s)).timedOperation = true ∧
    (manualStop t1 (retractForTime t0 d s)).currentState = .STATE_IDLE ∧
    (manualStop t1 (retractForTime t0 d s)).operationStartTime = t0 ∧
    (manualStop t1 (retractForTime t0 d s)).operationDuration = d ∧
    (manualStop t1 (retractForTime t0 d s)).timedOperationState = .STATE_RETRACTING := by
  by_cases h1 : s.timedOperation <;> by_cases h2 : s.timingMeasurementActive <;>
    simp [manualStop, retractForTime, retract, stop, publishStatus, hop, h1, h2]

/-- Claim C10: manualStop with Operation idle stops the drive but leaves
an outstanding timed operation pending, so the first updateTimedOperations
poll at or after the original expiry still stops and publishes the
matching completion status (extend_complete / retract_complete); polls
before the expiry change nothing. -/
theorem c10_manual_stop_keeps_timed (s : MotorController) (t0 d t1 t2 : Nat)
    (hop : s.currentOperation = .IDLE) (hle : t0 ≤ t2) (ht2 : t2 < U32)
    (hexp : d ≤ t2 - t0) :
    (manualStop t1 (extendForTime t0 d s)).timedOperation = true ∧
    (manualStop t1 (extendForTime t0 d s)).currentState = .STATE_IDLE ∧
    (updateTimedOperations t2 (manualStop t1 (extendForTime t0 d s))).timedOperation
        = false ∧
    (updateTimedOperations t2 (manualStop t1 (extendForTime t0 d s))).pub
        = (manualStop t1 (extendForTime t0 d s)).pub ++ ["idle", "extend_complete"] ∧
    (∀ t3, t0 ≤ t3 → t3 < U32 → t3 - t0 < d →
      updateTimedOperations t3 (manualStop t1 (extendForTime t0 d s))
        = manualStop t1 (extendForTime t0 d s)) ∧
    (manualStop t1 (retractForTime t0 d s)).timedOperation = true ∧
    (manualStop t1 (retractForTime t0 d s)).currentState = .STATE_IDLE ∧
    (updateTimedOperations t2 (manualStop t1 (retractForTime t0 d s))).timedOperation
        = false ∧
    (updateTimedOperations t2 (manualStop t1 (retractForTime t0 d s))).pub
        = (manualStop t1 (retractForTime t0 d s)).pub ++ ["idle", "retract_complete"] := by
  have hw2 : wsub t2 t0 = t2 - t0 := wsub_eq_of_le hle ht2
  obtain ⟨he1, he2, he3, he4, he5⟩ := manualStop_after_extendForTime s t0 d t1 hop
  obtain ⟨hr1, hr2, hr3, hr4, hr5⟩ := manualStop_after_retractForTime s t0 d t1 hop
  refine ⟨he1, he2, ?_, ?_, fun t3 ht3 ht3u ht3d => ?_, hr1, hr2, ?_, ?_⟩
  · simp [updateTimedOperations, he1, he3, he4, he5, hw2, hexp, stop, publishStatus]
  · simp [updateTimedOperations, he1, he3, he4, he5, hw2, hexp, stop, publishStatus,
      List.append_assoc]
  · have hw3 : wsub t3 t0 = t3 - t0 := wsub_eq_of_le ht3 ht3u
    simp [updateTimedOperations, he1, he3, he4, hw3, Nat.not_le.mpr ht3d]
  · simp [updateTimedOperations, hr1, hr3, hr4, hr5, hw2, hexp, stop, publishStatus]
  · simp [updateTimedOperations, hr1, hr3, hr4, hr5, hw2, hexp, stop, publishStatus,
      List.append_assoc]

/-- Record updates of the watchdog timer field do not change what
isTapping reads. -/
theorem isTapping_set_moveStartTime (s : MotorController) (x : Nat) :
    isTapping { s with moveStartTime := x } = isTapping s := rfl

/-- Claim C5: the safety watchdog never force-stops while any recognized
operation is active (legacy tap, timed operation or dual-card operation,
exactly what isTapping checks), and it does force-stop (drive to idle,
timer reset) once the drive has been extending or retracting with no
operation active for more than the 5000 ms ceiling — both in one poll
once the uncontrolled interval is marked, and across two polls starting
from an unmarked timer. -/
theorem c5_watchdog (s : MotorController) (t0 t1 : Nat) :
    (isTapping s = true →
      checkLimitSwitches t0 s = { s with moveStartTime := 0 }) ∧
    (isTapping s = false →
      s.currentState = .STATE_EXTENDING ∨ s.currentState = .STATE_RETRACTING →
      s.moveStartTime ≠ 0 → wsub t0 s.moveStartTime > 5000 →
      checkLimitSwitches t0 s = { stop s with moveStartTime := 0 } ∧
      (checkLimitSwitches t0 s).currentState = .STATE_IDLE) ∧
    (isTapping s = false →
      s.currentState = .STATE_EXTENDING ∨ s.currentState = .STATE_RETRACTING →
      s.moveStartTime = 0 →
      checkLimitSwitches t0 s = { s with moveStartTime := t0 } ∧
      (t0 ≠ 0 → wsub t1 t0 > 5000 →
        (checkLimitSwitches t1 (checkLimitSwitches t0 s)).currentState = .STATE_IDLE ∧
        (checkLimitSwitches t1 (checkLimitSwitches t0 s)).moveStartTime = 0)) := by
  refine ⟨fun h => ?_, fun h hd hm hw => ?_, fun h hd hm => ⟨?_, fun ht0 hw1 => ?_⟩⟩
  · simp [checkLimitSwitches, h]
  · constructor <;> simp [checkLimitSwitches, stop, publishStatus, h, hd, hm, hw]
  · simp [checkLimitSwitches, h, hd, hm]
  · have h3a : checkLimitSwitches t0 s = { s with moveStartTime := t0 } := by
      simp [checkLimitSwitches, h, hd, hm]
    rw [h3a]
    constructor <;>
      simp [checkLimitSwitches, isTapping_set_moveStartTime, stop, publishStatus,
        h, hd, ht0, hw1]

/-- Witness for C5: a bare extend() from boot is stopped by the watchdog. -/
theorem c5_watchdog_witness :
    checkLimitSwitches 10 (extend MotorController.init)
        = { extend MotorController.init with moveStartTime := 10 } ∧
    (checkLimitSwitches 6000 (checkLimitSwitches 10 (extend MotorController.init))).currentState
        = .STATE_IDLE := by
  have h := (c5_watchdog (extend MotorController.init) 10 6000).2.2
    (by decide) (by decide) (by decide)
  exact ⟨h.1, (h.2 (by decide) (by decide)).1⟩

/-- Claim C6, evaluated at the failing input (12V, Position Unknown,
reset issued at t=1000): phase 1 ends at elapsed 2611 ms
(RETRACT_FULL_12V_MS) switching to extend with previousPosition set to
CARD2 and the timer restarted, as the claim says; but because
previousPosition is now CARD2, the next polls take the CARD2 branch, so
at phase-2 elapsed 1284 ms (HOME_FROM_RETRACTED_12V_MS — the duration the
claim and the code's own unreachable step-2 branch prescribe) nothing
happens, and the operation only completes at phase-2 elapsed 1300 ms
(CARD2_TO_HOME_12V_MS). -/
theorem c6_unknown_recovery_eval :
    c6s1.currentOperation = .MOVING_TO_MIDDLE ∧
    c6s1.previousPosition = .UNKNOWN ∧
    c6s1.currentState = .STATE_RETRACTING ∧
    c6s2.currentOperation = .MOVING_TO_MIDDLE ∧
    c6s2.previousPosition = .CARD2 ∧
    c6s2.currentState = .STATE_EXTENDING ∧
    c6s2.dualCardOperationStartTime = 3611 ∧
    c6s3 = c6s2 ∧
    c6s4.currentOperation = .IDLE ∧
    c6s4.currentPosition = .MIDDLE ∧
    c6s4.currentState = .STATE_IDLE := by
  decide

/-- Unfolding one completed tap in the drift model. -/
theorem driftAfter_succ (c : Card) (n : Nat) :
    TapperSystem.driftAfter c (n + 1)
      = TapperSystem.recordTapDrift c (TapperSystem.driftAfter c n) := by
  simp [TapperSystem.driftAfter, Function.iterate_succ_apply']

/-- Closed form of the drift accumulator after n completed taps. -/
theorem driftAcc_closed_form (c : Card) (n : Nat) :
    TapperSystem.driftAcc c (TapperSystem.driftAfter c n)
      = min (n * TapperSystem.DRIFT_PER_TAP_MS) TapperSystem.MAX_DRIFT_COMPENSATION := by
  induction n with
  | zero =>
      cases c <;>
        simp [TapperSystem.driftAfter, TapperSystem.driftAcc, TapperSystem.initialDrift]
  | succ n ih =>
      rw [driftAfter_succ]
      cases c <;>
        simp [TapperSystem.recordTapDrift, TapperSystem.driftAcc,
          TapperSystem.DRIFT_PER_TAP_MS, TapperSystem.MAX_DRIFT_COMPENSATION] at ih ⊢ <;>
        omega

/-- Claim C1 (drift model of the tapper_system variant, modelled from the
spec where its implementation file is missing): the accumulator after n
completed taps is min(5n, 50) — monotone, capped at 50 — and every
compensated return-duration lookup equals the nominal table value minus
min(accumulator, cap), which never clamps to zero because every nominal
value exceeds the cap. -/
theorem c1_drift_compensation (c : Card) (p : Bool) (n : Nat) :
    TapperSystem.driftAcc c (TapperSystem.driftAfter c n)
        ≤ TapperSystem.MAX_DRIFT_COMPENSATION ∧
    TapperSystem.driftAcc c (TapperSystem.driftAfter c n)
        ≤ TapperSystem.driftAcc c (TapperSystem.driftAfter c (n + 1)) ∧
    TapperSystem.driftAcc c (TapperSystem.driftAfter c n)
        = min (n * TapperSystem.DRIFT_PER_TAP_MS) TapperSystem.MAX_DRIFT_COMPENSATION ∧
    TapperSystem.compensatedToHomeMs c p (TapperSystem.driftAfter c n)
        = (TapperSystem.nominalToHomeMs c p : Int) -
            (min (TapperSystem.driftAcc c (TapperSystem.driftAfter c n))
              TapperSystem.MAX_DRIFT_COMPENSATION : Nat) ∧
    0 < TapperSystem.compensatedToHomeMs c p (TapperSystem.driftAfter c n) := by
  have h0 := driftAcc_closed_form c n
  have h1 := driftAcc_closed_form c (n + 1)
  refine ⟨?_, ?_, h0, ?_, ?_⟩
  · simp [h0, TapperSystem.DRIFT_PER_TAP_MS, TapperSystem.MAX_DRIFT_COMPENSATION]
      at h0 ⊢
  · rw [h0, h1]
    simp [TapperSystem.DRIFT_PER_TAP_MS, TapperSystem.MAX_DRIFT_COMPENSATION]
  · rcases c <;> rcases p <;>
      simp [TapperSystem.compensatedToHomeMs, TapperSystem.nominalToHomeMs,
        TapperSystem.CARD1_TO_HOME_12V_US, TapperSystem.CARD1_TO_HOME_USB_US,
        TapperSystem.CARD2_TO_HOME_12V_US, TapperSystem.CARD2_TO_HOME_USB_US,
        TapperSystem.MAX_DRIFT_COMPENSATION] at h0 ⊢
  · rcases c <;> rcases p <;>
      simp [TapperSystem.compensatedToHomeMs, TapperSystem.nominalToHomeMs,
        TapperSystem.CARD1_TO_HOME_12V_US, TapperSystem.CARD1_TO_HOME_USB_US,
        TapperSystem.CARD2_TO_HOME_12V_US, TapperSystem.CARD2_TO_HOME_USB_US,
        TapperSystem.MAX_DRIFT_COMPENSATION] at h0 ⊢

/-- Witness for C10 at concrete times. -/
theorem c10_manual_stop_keeps_timed_witness :
    (manualStop 400 (extendForTime 100 1000 midState)).timedOperation = true ∧
    (updateTimedOperations 1100 (manualStop 400 (extendForTime 100 1000 midState))).pub
      = (manualStop 400 (extendForTime 100 1000 midState)).pub
          ++ ["idle", "extend_complete"] := by
  have h := c10_manual_stop_keeps_timed midState 100 1000 400 1100
    (by decide) (by decide) (by decide) (by decide)
  exact ⟨h.1, h.2.2.2.1⟩

/- Getter bridging lemmas: the timing getters as functions of the power
flag. -/

theorem getCard1FromHomeMs_eq (s : MotorController) (p : Bool)
    (h : s.is12VPower = p) : getCard1FromHomeMs s = approachDur .one p := by
  cases p <;> simp [getCard1FromHomeMs, approachDur, h]

theorem getCard2FromHomeMs_eq (s : MotorController) (p : Bool)
    (h : s.is12VPower = p) : getCard2FromHomeMs s = approachDur .two p := by
  cases p <;> simp [getCard2FromHomeMs, approachDur, h]

theorem getCard1TapPauseMs_eq (s : MotorController) (p : Bool)
    (h : s.is12VPower = p) : getCard1TapPauseMs s = pauseDur .one p := by
  cases p <;> simp [getCard1TapPauseMs, pauseDur, h]

theorem getCard2TapPauseMs_eq (s : MotorController) (p : Bool)
    (h : s.is12VPower = p) : getCard2TapPauseMs s = pauseDur .two p := by
  cases p <;> simp [getCard2TapPauseMs, pauseDur, h]

theorem getCard1ToHomeMs_eq (s : MotorController) (p : Bool)
    (h : s.is12VPower = p) : getCard1ToHomeMs s = returnDur .one p := by
  cases p <;> simp [getCard1ToHomeMs, returnDur, h]

theorem getCard2ToHomeMs_eq (s : MotorController) (p : Bool)
    (h : s.is12VPower = p) : getCard2ToHomeMs s = returnDur .two p := by
  cases p <;> simp [getCard2ToHomeMs, returnDur, h]

/- Basic run and trace lemmas. -/

theorem update_idle (t : Nat) (s : MotorController)
    (h : s.currentOperation = .IDLE) : updateDualCardOperations t s = s := by
  simp [updateDualCardOperations, h]

theorem runUpdates_nil (s : MotorController) : runUpdates s [] = s := rfl

theorem runUpdates_cons (s : MotorController) (t : Nat) (ts : List Nat) :
    runUpdates s (t :: ts) = runUpdates (updateDualCardOperations t s) ts := rfl

theorem opsTrace_cons (s : MotorController) (t : Nat) (ts : List Nat) :
    opsTrace s (t :: ts) =
      (updateDualCardOperations t s).currentOperation ::
        opsTrace (updateDualCardOperations t s) ts := rfl

theorem runUpdates_idle (s : MotorController) (ts : List Nat)
    (h : s.currentOperation = .IDLE) : runUpdates s ts = s := by
  induction ts with
  | nil => rfl
  | cons t ts ih => rw [runUpdates_cons, update_idle t s h]; exact ih

theorem opsTrace_idle (s : MotorController) (ts : List Nat)
    (h : s.currentOperation = .IDLE) :
    opsTrace s ts = List.replicate ts.length .IDLE := by
  induction ts with
  | nil => rfl
  | cons t ts ih => rw [opsTrace_cons, update_idle t s h, h, ih]; rfl

theorem dedupConsec_replicate (n : Nat) (a : Operation) :
    dedupConsec (a :: List.replicate n a) = [a] := by
  induction n with
  | zero => rfl
  | succ n ih => rw [List.replicate_succ, dedupConsec, if_pos rfl]; exact ih

theorem chain_le_of_le {a b : Nat} {l : List Nat} (h : a ≤ b)
    (hc : List.Chain (· ≤ ·) b l) : List.Chain (· ≤ ·) a l := by
  cases hc with
  | nil => exact .nil
  | cons hab h' => exact .cons (le_trans h hab) h'

/- Phase step lemmas: each poll of updateDualCardOperations either leaves
a phase untouched (before the phase deadline) or advances it exactly to
the next phase (at or after the deadline), restarting the phase timer at
the poll time. -/

theorem tapPhase1_step (c : Card) (p : Bool) (b t : Nat) (s : MotorController)
    (h : tapPhase1 c p b s) (hbt : b ≤ t) (ht : t < U32) :
    (t - b < approachDur c p ∧ updateDualCardOperations t s = s) ∨
    (approachDur c p ≤ t - b ∧ tapPhase2 c p t (updateDualCardOperations t s)) := by
  obtain ⟨h1, h2, h3, h4⟩ := h
  have hw : wsub t b = t - b := wsub_eq_of_le hbt ht
  by_cases hd : approachDur c p ≤ t - b
  · refine Or.inr ⟨hd, ?_⟩
    cases c <;>
      simp [updateDualCardOperations, movingOp, tappingOp, cardPos, tapPhase2,
        isDualCardOperationTimedOut, getCard1FromHomeMs_eq s p h4,
        getCard2FromHomeMs_eq s p h4, stop, publishStatus,
        h1, h3, h4, hw, hd]
  · refine Or.inl ⟨by omega, ?_⟩
    cases c <;>
      simp [updateDualCardOperations, movingOp,
        isDualCardOperationTimedOut, getCard1FromHomeMs_eq s p h4,
        getCard2FromHomeMs_eq s p h4, h1, h3, hw, hd]

theorem tapPhase2_step (c : Card) (p : Bool) (b t : Nat) (s : MotorController)
    (h : tapPhase2 c p b s) (hbt : b ≤ t) (ht : t < U32) :
    (t - b < pauseDur c p ∧ updateDualCardOperations t s = s) ∨
    (pauseDur c p ≤ t - b ∧ tapPhase3 c p t (updateDualCardOperations t s)) := by
  obtain ⟨h1, h2, h3, h4⟩ := h
  have hw : wsub t b = t - b := wsub_eq_of_le hbt ht
  by_cases hd : pauseDur c p ≤ t - b
  · refine Or.inr ⟨hd, ?_⟩
    cases c <;>
      simp [updateDualCardOperations, tappingOp, cardPos, tapPhase3,
        isDualCardOperationTimedOut, getCard1TapPauseMs_eq s p h4,
        getCard2TapPauseMs_eq s p h4, retract, extend, publishStatus,
        h1, h2, h3, h4, hw, hd]
  · refine Or.inl ⟨by omega, ?_⟩
    cases c <;>
      simp [updateDualCardOperations, tappingOp,
        isDualCardOperationTimedOut, getCard1TapPauseMs_eq s p h4,
        getCard2TapPauseMs_eq s p h4, h1, h3, hw, hd]

theorem tapPhase3_step (c : Card) (p : Bool) (b t : Nat) (s : MotorController)
    (h : tapPhase3 c p b s) (hbt : b ≤ t) (ht : t < U32) :
    (t - b < returnDur c p ∧ updateDualCardOperations t s = s) ∨
    (returnDur c p ≤ t - b ∧
      (updateDualCardOperations t s).currentOperation = .IDLE ∧
      (updateDualCardOperations t s).currentPosition = .MIDDLE) := by
  obtain ⟨h1, h2, h2', h3, h4⟩ := h
  have hw : wsub t b = t - b := wsub_eq_of_le hbt ht
  by_cases hd : returnDur c p ≤ t - b
  · refine Or.inr ⟨hd, ?_⟩
    cases c <;>
      simp [updateDualCardOperations, cardPos,
        isDualCardOperationTimedOut, getCard1ToHomeMs_eq s p h4,
        getCard2ToHomeMs_eq s p h4, completeDualCardOperation, stop,
        publishStatus, publishDetailedStatus,
        h1, h2, h3, hw, hd]
  · refine Or.inl ⟨by omega, ?_⟩
    cases c <;>
      simp [updateDualCardOperations, cardPos,
        isDualCardOperationTimedOut, getCard1ToHomeMs_eq s p h4,
        getCard2ToHomeMs_eq s p h4, h1, h2, h3, hw, hd]

/- Whole-run lemmas, one per phase, by induction over the poll schedule. -/

theorem run_tapPhase3 (c : Card) (p : Bool) (ts : List Nat) :
    ∀ (s : MotorController) (b : Nat), tapPhase3 c p b s →
      List.Chain (· ≤ ·) b ts → (∀ t ∈ ts, t < U32) →
      (runUpdates s ts).currentOperation = .IDLE →
      dedupConsec (Operation.MOVING_TO_MIDDLE :: opsTrace s ts)
          = [.MOVING_TO_MIDDLE, .IDLE] ∧
      (runUpdates s ts).currentPosition = .MIDDLE := by
  induction ts with
  | nil =>
      intro s b h _ _ hdone
      rw [runUpdates_nil] at hdone; simp [h.1] at hdone
  | cons t ts ih =>
      intro s b h hchain hlt hdone
      have hbt : b ≤ t := (List.chain_cons.mp hchain).1
      have hct : List.Chain (· ≤ ·) t ts := (List.chain_cons.mp hchain).2
      have htU : t < U32 := hlt t (by simp)
      have hlt' : ∀ x ∈ ts, x < U32 := fun x hx => hlt x (by simp [hx])
      rcases tapPhase3_step c p b t s h hbt htU with ⟨_, heq⟩ | ⟨_, hidle, hpos⟩
      · have hdone2 : (runUpdates s ts).currentOperation = .IDLE := by
          rwa [runUpdates_cons, heq] at hdone
        obtain ⟨ihtr, ihpos⟩ :=
          ih s b h (chain_le_of_le hbt hct) hlt' hdone2
        constructor
        · rw [opsTrace_cons, heq, h.1, dedupConsec, if_pos rfl]
          exact ihtr
        · rw [runUpdates_cons, heq]; exact ihpos
      · have habs := runUpdates_idle (updateDualCardOperations t s) ts hidle
        have htr := opsTrace_idle (updateDualCardOperations t s) ts hidle
        constructor
        · rw [opsTrace_cons, hidle, htr, dedupConsec, if_neg (by decide)]
          rw [dedupConsec_replicate]
        · rw [runUpdates_cons, habs]; exact hpos

theorem run_tapPhase2 (c : Card) (p : Bool) (ts : List Nat) :
    ∀ (s : MotorController) (b : Nat), tapPhase2 c p b s →
      List.Chain (· ≤ ·) b ts → (∀ t ∈ ts, t < U32) →
      (runUpdates s ts).currentOperation = .IDLE →
      dedupConsec (tappingOp c :: opsTrace s ts)
          = [tappingOp c, .MOVING_TO_MIDDLE, .IDLE] ∧
      (runUpdates s ts).currentPosition = .MIDDLE := by
  induction ts with
  | nil =>
      intro s b h _ _ hdone
      rw [runUpdates_nil] at hdone
      rw [h.1] at hdone
      cases c <;> simp [tappingOp] at hdone
  | cons t ts ih =>
      intro s b h hchain hlt hdone
      have hbt : b ≤ t := (List.chain_cons.mp hchain).1
      have hct : List.Chain (· ≤ ·) t ts := (List.chain_cons.mp hchain).2
      have htU : t < U32 := hlt t (by simp)
      have hlt' : ∀ x ∈ ts, x < U32 := fun x hx => hlt x (by simp [hx])
      rcases tapPhase2_step c p b t s h hbt htU with ⟨_, heq⟩ | ⟨_, hph3⟩
      · have hdone2 : (runUpdates s ts).currentOperation = .IDLE := by
          rwa [runUpdates_cons, heq] at hdone
        obtain ⟨ihtr, ihpos⟩ :=
          ih s b h (chain_le_of_le hbt hct) hlt' hdone2
        constructor
        · rw [opsTrace_cons, heq, h.1, dedupConsec, if_pos rfl]
          exact ihtr
        · rw [runUpdates_cons, heq]; exact ihpos
      · have hdone2 :
            (runUpdates (updateDualCardOperations t s) ts).currentOperation = .IDLE := by
          rwa [runUpdates_cons] at hdone
        obtain ⟨ihtr, ihpos⟩ :=
          run_tapPhase3 c p ts (updateDualCardOperations t s) t hph3 hct hlt' hdone2
        constructor
        · rw [opsTrace_cons, hph3.1, dedupConsec,
            if_neg (by cases c <;> decide)]
          rw [ihtr]
        · rw [runUpdates_cons]; exact ihpos

theorem run_tapPhase1 (c : Card) (p : Bool) (ts : List Nat) :
    ∀ (s : MotorController) (b : Nat), tapPhase1 c p b s →
      List.Chain (· ≤ ·) b ts → (∀ t ∈ ts, t < U32) →
      (runUpdates s ts).currentOperation = .IDLE →
      dedupConsec (movingOp c :: opsTrace s ts)
          = [movingOp c, tappingOp c, .MOVING_TO_MIDDLE, .IDLE] ∧
      (runUpdates s ts).currentPosition = .MIDDLE := by
  induction ts with
  | nil =>
      intro s b h _ _ hdone
      rw [runUpdates_nil] at hdone
      rw [h.1] at hdone
      cases c <;> simp [movingOp] at hdone
  | cons t ts ih =>
      intro s b h hchain hlt hdone
      have hbt : b ≤ t := (List.chain_cons.mp hchain).1
      have hct : List.Chain (· ≤ ·) t ts := (List.chain_cons.mp hchain).2
      have htU : t < U32 := hlt t (by simp)
      have hlt' : ∀ x ∈ ts, x < U32 := fun x hx => hlt x (by simp [hx])
      rcases tapPhase1_step c p b t s h hbt htU with ⟨_, heq⟩ | ⟨_, hph2⟩
      · have hdone2 : (runUpdates s ts).currentOperation = .IDLE := by
          rwa [runUpdates_cons, heq] at hdone
        obtain ⟨ihtr, ihpos⟩ :=
          ih s b h (chain_le_of_le hbt hct) hlt' hdone2
        constructor
        · rw [opsTrace_cons, heq, h.1, dedupConsec, if_pos rfl]
          exact ihtr
        · rw [runUpdates_cons, heq]; exact ihpos
      · have hdone2 :
            (runUpdates (updateDualCardOperations t s) ts).currentOperation = .IDLE := by
          rwa [runUpdates_cons] at hdone
        obtain ⟨ihtr, ihpos⟩ :=
          run_tapPhase2 c p ts (updateDualCardOperations t s) t hph2 hct hlt' hdone2
        constructor
        · rw [opsTrace_cons, hph2.1, dedupConsec,
            if_neg (by cases c <;> decide)]
          rw [ihtr]
        · rw [runUpdates_cons]; exact ihpos

/-- A tap request accepted at Middle/Idle establishes the approach phase. -/
theorem tapCard_phase1 (c : Card) (t0 : Nat) (s : MotorController)
    (hop : s.currentOperation = .IDLE) (hpos : s.currentPosition = .MIDDLE) :
    tapPhase1 c s.is12VPower t0 (tapCard c t0 s) ∧
    (tapCard c t0 s).currentOperation = movingOp c := by
  cases c <;>
    simp [tapCard, tapCard1, tapCard2, startDualCardOperation, extend, retract,
      publishStatus, tapPhase1, movingOp, hop, hpos]

/-- Claim C2: starting at Middle with Operation idle, a tapCard1/tapCard2
request followed by updateDualCardOperations polls at nondecreasing clock
values visits, once the run reaches Idle, exactly the phase sequence
MovingToCardX, TappingCardX, MovingToMiddle, Idle (consecutive duplicate
observations collapsed), and ends with Position = Middle. -/
theorem c2_tap_sequence (c : Card) (s : MotorController) (t0 : Nat)
    (ts : List Nat) (hop : s.currentOperation = .IDLE)
    (hpos : s.currentPosition = .MIDDLE)
    (hchain : List.Chain (· ≤ ·) t0 ts) (hlt : ∀ t ∈ ts, t < U32)
    (hdone : (runUpdates (tapCard c t0 s) ts).currentOperation = .IDLE) :
    dedupConsec ((tapCard c t0 s).currentOperation :: opsTrace (tapCard c t0 s) ts)
        = [movingOp c, tappingOp c, .MOVING_TO_MIDDLE, .IDLE] ∧
    (runUpdates (tapCard c t0 s) ts).currentPosition = .MIDDLE := by
  obtain ⟨hph, hopn⟩ := tapCard_phase1 c t0 s hop hpos
  rw [hopn]
  exact run_tapPhase1 c s.is12VPower ts (tapCard c t0 s) t0 hph hchain hlt hdone

/-- Witness for C2: a concrete 12V Card1 tap run, polls at 1200, 2200 and
3300 ms for a tap requested at 100 ms. -/
theorem c2_tap_sequence_witness :
    dedupConsec ((tapCard .one 100 midState).currentOperation ::
        opsTrace (tapCard .one 100 midState) [1200, 2200, 3300])
      = [movingOp .one, tappingOp .one, .MOVING_TO_MIDDLE, .IDLE] ∧
    (runUpdates (tapCard .one 100 midState) [1200, 2200, 3300]).currentPosition
      = .MIDDLE :=
  c2_tap_sequence .one midState 100 [1200, 2200, 3300] (by decide) (by decide)
    (List.Chain.cons (by decide)
      (List.Chain.cons (by decide) (List.Chain.cons (by decide) List.Chain.nil)))
    (by decide) (by decide)

end ESPTapper
